import Mathlib

/-!
Verification of the salary-distribution calculator in `src/server.js`
(`calculateDistribution`).  The JavaScript core is pure arithmetic over
process-wide constant tables; we embed it shallowly over `ℚ`, reading every
decimal literal of the source exactly.  Non-finite JavaScript numbers
(`NaN`, `±Infinity`) are modelled by the `JSNum` type, since the function's
input guard distinguishes finite from non-finite values.
-/

namespace Taxes

/-- A JavaScript number as far as `Number.isFinite` can observe it:
either a finite value (embedded as an exact rational) or one of the
non-finite values `NaN`, `Infinity`, `-Infinity`. -/
inductive JSNum where
  | finite (q : ℚ)
  | nan
  | posInf
  | negInf
deriving DecidableEq

/-- The `Number.isFinite` test. -/
def JSNum.isFinite : JSNum → Bool
  | .finite _ => true
  | _ => false

/-- The `rates` table of social-security contribution rates
(fractions of gross salary), from `src/server.js` lines 40-52. -/
structure Rates where
  pensionEmployee : ℚ
  pensionEmployer : ℚ
  healthEmployee : ℚ
  healthEmployer : ℚ
  unemploymentEmployee : ℚ
  unemploymentEmployer : ℚ
  parentalEmployee : ℚ
  parentalEmployer : ℚ
  injuryEmployer : ℚ
  longTermCareEmployee : ℚ
  longTermCareEmployer : ℚ

/-- The constant `rates` value. -/
def rates : Rates where
  pensionEmployee := 0.155
  pensionEmployer := 0.0885
  healthEmployee := 0.0636
  healthEmployer := 0.0656
  unemploymentEmployee := 0.0014
  unemploymentEmployer := 0.0006
  parentalEmployee := 0.0010
  parentalEmployer := 0.0010
  injuryEmployer := 0.0053
  longTermCareEmployee := 0.01
  longTermCareEmployer := 0.01

/-- Flat compulsory monthly health-care contribution in euros
(`src/server.js` line 55). -/
def flatHealthContribution : ℚ := 35

/-- The `relativeGeneralShares` table: shares of total general government
expenditure by function (`src/server.js` lines 109-120). -/
structure GeneralShares where
  socialProtection : ℚ
  health : ℚ
  economicAffairs : ℚ
  education : ℚ
  generalPublicServices : ℚ
  publicOrderAndSafety : ℚ
  recreationCultureReligion : ℚ
  defence : ℚ
  environmentalProtection : ℚ
  housingAndCommunity : ℚ

/-- The constant `relativeGeneralShares` value. -/
def relativeGeneralShares : GeneralShares where
  socialProtection := 0.3655913978494624
  health := 0.15913978494623654
  economicAffairs := 0.13548387096774192
  education := 0.11612903225806451
  generalPublicServices := 0.0989247311827957
  publicOrderAndSafety := 0.034408602150537634
  recreationCultureReligion := 0.03225806451612903
  defence := 0.025806451612903226
  environmentalProtection := 0.019354838709677417
  housingAndCommunity := 0.01075268817204301

/-- The `relativeSocialSubShares` table: social-protection sub-category
distribution (`src/server.js` lines 123-133). -/
structure SocialSubShares where
  sicknessAndDisability : ℚ
  oldAge : ℚ
  survivors : ℚ
  familyChildren : ℚ
  unemployment : ℚ
  housing : ℚ
  socialExclusion : ℚ
  rAndD : ℚ
  other : ℚ

/-- The constant `relativeSocialSubShares` value. -/
def relativeSocialSubShares : SocialSubShares where
  sicknessAndDisability := 0.05478982029930613
  oldAge := 0.21217990101140521
  survivors := 0.02414123774418658
  familyChildren := 0.03907778567808973
  unemployment := 0.006608495248408616
  housing := 0.0007080530623294946
  socialExclusion := 0.021477609557328
  rAndD := 0.0000337168124918807
  other := 0.006574778435916736

/-- Source's `sharePensions` (`src/server.js` line 139). -/
def sharePensions : ℚ := relativeSocialSubShares.oldAge

/-- Source's `shareUnemployment` (line 140). -/
def shareUnemployment : ℚ := relativeSocialSubShares.unemployment

/-- Source's `shareFamily` (line 141). -/
def shareFamily : ℚ := relativeSocialSubShares.familyChildren

/-- Source's `shareOtherSocial` (lines 142-146). -/
def shareOtherSocial : ℚ :=
  relativeSocialSubShares.survivors +
  relativeSocialSubShares.socialExclusion +
  relativeSocialSubShares.housing +
  relativeSocialSubShares.rAndD +
  relativeSocialSubShares.other

/-- Source's `shareHealthcare` (line 149). -/
def shareHealthcare : ℚ :=
  relativeGeneralShares.health + relativeSocialSubShares.sicknessAndDisability

/-- The five contribution amounts (`src/server.js` lines 58-69). -/
def pensionContribution (gross : ℚ) : ℚ :=
  gross * (rates.pensionEmployee + rates.pensionEmployer)

/-- Health contribution: health insurance plus long-term care for both
sides, plus the flat fee (lines 61-63). -/
def healthContribution (gross : ℚ) : ℚ :=
  gross * (rates.healthEmployee + rates.healthEmployer +
           rates.longTermCareEmployee + rates.longTermCareEmployer) +
  flatHealthContribution

/-- Unemployment contribution (line 65). -/
def unemploymentContribution (gross : ℚ) : ℚ :=
  gross * (rates.unemploymentEmployee + rates.unemploymentEmployer)

/-- Parental contribution (line 67). -/
def parentalContribution (gross : ℚ) : ℚ :=
  gross * (rates.parentalEmployee + rates.parentalEmployer)

/-- Injury contribution, employer only (line 69). -/
def injuryContribution (gross : ℚ) : ℚ :=
  gross * rates.injuryEmployer

/-- Source's `totalEmployeeContrib` (`src/server.js` lines 73-79). -/
def totalEmployeeContrib (gross : ℚ) : ℚ :=
  gross * (rates.pensionEmployee +
           rates.healthEmployee +
           rates.unemploymentEmployee +
           rates.parentalEmployee +
           rates.longTermCareEmployee) + flatHealthContribution

/-- Source's `totalEmployerContrib` (lines 80-87). -/
def totalEmployerContrib (gross : ℚ) : ℚ :=
  gross * (rates.pensionEmployer +
           rates.healthEmployer +
           rates.unemploymentEmployer +
           rates.parentalEmployer +
           rates.injuryEmployer +
           rates.longTermCareEmployer)

/-- Source's `withheld = gross - net` (line 95). -/
def withheld (net gross : ℚ) : ℚ := gross - net

/-- Source's `estimatedEmployeeContrib` (lines 96-100).  The source writes this
expression out a second time, separately from `totalEmployeeContrib`. -/
def estimatedEmployeeContrib (gross : ℚ) : ℚ :=
  gross * (rates.pensionEmployee + rates.healthEmployee +
           rates.unemploymentEmployee + rates.parentalEmployee +
           rates.longTermCareEmployee) + flatHealthContribution

/-- Source's `personalIncomeTax` with the clamp to zero (lines 101-102). -/
def personalIncomeTax (net gross : ℚ) : ℚ :=
  let t := withheld net gross - estimatedEmployeeContrib gross
  if t < 0 then 0 else t

/-- The `allocated` object: personal income tax split by category
(`src/server.js` lines 153-166), fields in the source's insertion order. -/
structure Allocations where
  pensions : ℚ
  healthcare : ℚ
  unemployment : ℚ
  familySupport : ℚ
  otherSocialProtection : ℚ
  education : ℚ
  defence : ℚ
  police : ℚ
  economicAffairs : ℚ
  generalPublicServices : ℚ
  culture : ℚ
  environment : ℚ
  housing : ℚ

/-- Source's `Object.values(allocated)` in insertion order (used by the
`totalAllocatedTax` reduce on line 186). -/
def Allocations.values (a : Allocations) : List ℚ :=
  [a.pensions, a.healthcare, a.unemployment, a.familySupport,
   a.otherSocialProtection, a.education, a.defence, a.police,
   a.economicAffairs, a.generalPublicServices, a.culture,
   a.environment, a.housing]

/-- Building `allocated` from the tax amount (lines 153-166). -/
def allocated (net gross : ℚ) : Allocations where
  pensions := personalIncomeTax net gross * sharePensions
  healthcare := personalIncomeTax net gross * shareHealthcare
  unemployment := personalIncomeTax net gross * shareUnemployment
  familySupport := personalIncomeTax net gross * shareFamily
  otherSocialProtection := personalIncomeTax net gross * shareOtherSocial
  education := personalIncomeTax net gross * relativeGeneralShares.education
  defence := personalIncomeTax net gross * relativeGeneralShares.defence
  police := personalIncomeTax net gross * relativeGeneralShares.publicOrderAndSafety
  economicAffairs := personalIncomeTax net gross * relativeGeneralShares.economicAffairs
  generalPublicServices := personalIncomeTax net gross * relativeGeneralShares.generalPublicServices
  culture := personalIncomeTax net gross * relativeGeneralShares.recreationCultureReligion
  environment := personalIncomeTax net gross * relativeGeneralShares.environmentalProtection
  housing := personalIncomeTax net gross * relativeGeneralShares.housingAndCommunity

/-- The `contributions` object of the result (lines 197-203). -/
structure Contributions where
  pension : ℚ
  health : ℚ
  unemployment : ℚ
  parental : ℚ
  injury : ℚ

/-- Source's `finalBreakdown`: the ordered 13-entry array of
`{name, amount}` records (lines 170-183). -/
def finalBreakdown (net gross : ℚ) : List (String × ℚ) :=
  let a := allocated net gross
  [("Pensions (old age)", pensionContribution gross + a.pensions),
   ("Healthcare & medical system",
      healthContribution gross + a.healthcare + injuryContribution gross),
   ("Unemployment insurance", unemploymentContribution gross + a.unemployment),
   ("Parental & family support", parentalContribution gross + a.familySupport),
   ("Other social protection", a.otherSocialProtection),
   ("Education (schools)", a.education),
   ("Defence (army)", a.defence),
   ("Police (public order & safety)", a.police),
   ("Economic affairs & subsidies", a.economicAffairs),
   ("General public services", a.generalPublicServices),
   ("Culture & recreation", a.culture),
   ("Environmental protection", a.environment),
   ("Housing & community amenities", a.housing)]

/-- Source's `totalAllocatedTax` (`src/server.js` line 186):
`Object.values(allocated).reduce((sum, v) => sum + v, 0)`. -/
def totalAllocatedTax (net gross : ℚ) : ℚ :=
  (allocated net gross).values.foldl (fun sum v => sum + v) 0

/-- Source's `totalContrib` (line 187). -/
def totalContrib (gross : ℚ) : ℚ :=
  pensionContribution gross + healthContribution gross +
  unemploymentContribution gross + parentalContribution gross +
  injuryContribution gross

/-- Source's `total` (line 188). -/
def total (net gross : ℚ) : ℚ := totalContrib gross + totalAllocatedTax net gross

/-- The success result object of `calculateDistribution`
(`src/server.js` lines 190-207). -/
structure Report where
  grossSalary : ℚ
  netSalary : ℚ
  withheld : ℚ
  employeeContributions : ℚ
  employerContributions : ℚ
  personalIncomeTax : ℚ
  contributions : Contributions
  allocations : Allocations
  breakdown : List (String × ℚ)
  totalCollected : ℚ

/-- Assembling the report for validated inputs. -/
def mkReport (net gross : ℚ) : Report where
  grossSalary := gross
  netSalary := net
  withheld := withheld net gross
  employeeContributions := totalEmployeeContrib gross
  employerContributions := totalEmployerContrib gross
  personalIncomeTax := personalIncomeTax net gross
  contributions :=
    { pension := pensionContribution gross
      health := healthContribution gross
      unemployment := unemploymentContribution gross
      parental := parentalContribution gross
      injury := injuryContribution gross }
  allocations := allocated net gross
  breakdown := finalBreakdown net gross
  totalCollected := total net gross

/-- The result of `calculateDistribution`: either the structured error
object `{error: ...}` or the report. -/
inductive CalcResult where
  | error (msg : String)
  | ok (r : Report)

/-- Source's `calculateDistribution` (`src/server.js` lines 28-208).  The guard on
line 32 rejects non-finite inputs and non-positive gross salary. -/
def calculateDistribution (netSalary grossSalary : JSNum) : CalcResult :=
  match netSalary, grossSalary with
  | .finite net, .finite gross =>
      if gross ≤ 0 then .error "Invalid salary values"
      else .ok (mkReport net gross)
  | _, _ => .error "Invalid salary values"

/-- The 13 derived user-facing category shares, in breakdown order:
the five shares combined from social-protection sub-shares and the eight
remaining general-government shares. -/
def derivedShares : List ℚ :=
  [sharePensions, shareHealthcare, shareUnemployment, shareFamily,
   shareOtherSocial, relativeGeneralShares.education,
   relativeGeneralShares.defence, relativeGeneralShares.publicOrderAndSafety,
   relativeGeneralShares.economicAffairs,
   relativeGeneralShares.generalPublicServices,
   relativeGeneralShares.recreationCultureReligion,
   relativeGeneralShares.environmentalProtection,
   relativeGeneralShares.housingAndCommunity]

/-- The sum of all eleven contribution rates, employee and employer side. -/
def allRatesSum : ℚ :=
  rates.pensionEmployee + rates.pensionEmployer +
  rates.healthEmployee + rates.healthEmployer +
  rates.unemploymentEmployee + rates.unemploymentEmployer +
  rates.parentalEmployee + rates.parentalEmployer +
  rates.injuryEmployer +
  rates.longTermCareEmployee + rates.longTermCareEmployer

/-- On finite inputs with positive gross salary the guard passes and the
report is returned. -/
theorem calc_ok (net gross : ℚ) (h : 0 < gross) :
    calculateDistribution (.finite net) (.finite gross) = .ok (mkReport net gross) := by
  simp [calculateDistribution, not_le.mpr h]

/-- The clamp on line 102 makes the tax nonnegative. -/
theorem personalIncomeTax_nonneg (net gross : ℚ) :
    0 ≤ personalIncomeTax net gross := by
  unfold personalIncomeTax
  dsimp only
  split
  · exact le_refl 0
  · exact not_lt.mp (by assumption)

/-- The if-then-else clamp is the same as taking a maximum with zero. -/
theorem personalIncomeTax_eq_max (net gross : ℚ) :
    personalIncomeTax net gross =
      max 0 (withheld net gross - estimatedEmployeeContrib gross) := by
  unfold personalIncomeTax
  dsimp only
  rcases lt_or_le (withheld net gross - estimatedEmployeeContrib gross) 0 with h | h
  · rw [if_pos h, max_eq_left h.le]
  · rw [if_neg (not_lt.mpr h), max_eq_right h]

/-- C1: for every accepted input (both finite, gross > 0) the report's
personal income tax equals the withheld amount minus the employee-side
contribution total, clamped at zero, and is therefore nonnegative. -/
theorem personalIncomeTax_clamped_residual (net gross : ℚ) (h : 0 < gross) :
    ∃ r : Report, calculateDistribution (.finite net) (.finite gross) = .ok r ∧
      r.personalIncomeTax =
        max 0 ((gross - net) -
          (gross * (rates.pensionEmployee + rates.healthEmployee +
                    rates.unemploymentEmployee + rates.parentalEmployee +
                    rates.longTermCareEmployee) + flatHealthContribution)) ∧
      0 ≤ r.personalIncomeTax := by
  refine ⟨mkReport net gross, calc_ok net gross h, ?_, personalIncomeTax_nonneg net gross⟩
  show personalIncomeTax net gross = _
  rw [personalIncomeTax_eq_max]
  rfl

/-- Witness for C1 at net = 1400, gross = 2000. -/
theorem personalIncomeTax_clamped_residual_witness :
    (0:ℚ) < 2000 ∧
    ∃ r : Report, calculateDistribution (.finite 1400) (.finite 2000) = .ok r ∧
      r.personalIncomeTax =
        max 0 ((2000 - 1400) -
          (2000 * (rates.pensionEmployee + rates.healthEmployee +
                   rates.unemploymentEmployee + rates.parentalEmployee +
                   rates.longTermCareEmployee) + flatHealthContribution)) ∧
      0 ≤ r.personalIncomeTax :=
  ⟨by norm_num, personalIncomeTax_clamped_residual 1400 2000 (by norm_num)⟩

/-- C2 counterexample: the 13 derived user-facing category shares do NOT sum
to 1 within floating-point tolerance; the gap exceeds one part in a million
(it is about 0.00215). -/
theorem derivedShares_sum_not_one :
    ¬ |derivedShares.sum - 1| ≤ 1 / 1000000 := by
  norm_num [derivedShares, sharePensions, shareHealthcare, shareUnemployment,
    shareFamily, shareOtherSocial, relativeGeneralShares, relativeSocialSubShares,
    abs_le]

/-- C2 amended: the 13 derived category shares sum to exactly
9978494623655913643 / 10^19 ≈ 0.9978494623655914, i.e. about 0.99785 rather
than 1: the constant tables leave roughly 0.215% of expenditure unallocated. -/
theorem derivedShares_sum_eq :
    derivedShares.sum = 9978494623655913643 / 10000000000000000000 := by
  norm_num [derivedShares, sharePensions, shareHealthcare, shareUnemployment,
    shareFamily, shareOtherSocial, relativeGeneralShares, relativeSocialSubShares]

/-- C5: for every gross > 0 and finite net, the report's `withheld` field is
exactly gross minus net. -/
theorem withheld_exact (net gross : ℚ) (h : 0 < gross) :
    ∃ r : Report, calculateDistribution (.finite net) (.finite gross) = .ok r ∧
      r.withheld = gross - net :=
  ⟨mkReport net gross, calc_ok net gross h, rfl⟩

/-- Witness for C5 at net = 250, gross = 4000. -/
theorem withheld_exact_witness :
    (0:ℚ) < 4000 ∧
    ∃ r : Report, calculateDistribution (.finite 250) (.finite 4000) = .ok r ∧
      r.withheld = 4000 - 250 :=
  ⟨by norm_num, withheld_exact 250 4000 (by norm_num)⟩

/-- C8: at gross = 2000 and net = 1400 the report has withheld = 600,
employee contributions 2000 × 0.231 + 35 = 497 exactly, and personal income
tax max 0 (600 − 497) = 103. -/
theorem scenario_2000_1400 :
    calculateDistribution (.finite 1400) (.finite 2000) = .ok (mkReport 1400 2000) ∧
    (mkReport 1400 2000).withheld = 600 ∧
    (mkReport 1400 2000).employeeContributions = 497 ∧
    (mkReport 1400 2000).personalIncomeTax = max 0 (600 - 497) ∧
    (mkReport 1400 2000).personalIncomeTax = 103 := by
  refine ⟨calc_ok 1400 2000 (by norm_num), ?_, ?_, ?_, ?_⟩ <;>
    norm_num [mkReport, withheld, totalEmployeeContrib, personalIncomeTax,
      estimatedEmployeeContrib, rates, flatHealthContribution]

/-- C9: the `estimatedEmployeeContrib` expression subtracted from the
withheld amount (source lines 96-100) and the `totalEmployeeContrib`
reported in the `employeeContributions` field (lines 73-79) are the same
quantity, so every report satisfies
personalIncomeTax = max 0 (withheld − employeeContributions) in terms of its
own fields. -/
theorem estimated_matches_reported_contrib (net gross : ℚ) (h : 0 < gross) :
    estimatedEmployeeContrib gross = totalEmployeeContrib gross ∧
    ∃ r : Report, calculateDistribution (.finite net) (.finite gross) = .ok r ∧
      r.personalIncomeTax = max 0 (r.withheld - r.employeeContributions) := by
  refine ⟨rfl, mkReport net gross, calc_ok net gross h, ?_⟩
  show personalIncomeTax net gross = max 0 (withheld net gross - totalEmployeeContrib gross)
  rw [personalIncomeTax_eq_max]
  rfl

/-- Witness for C9 at net = 900, gross = 1000. -/
theorem estimated_matches_reported_contrib_witness :
    (0:ℚ) < 1000 ∧
    (estimatedEmployeeContrib 1000 = totalEmployeeContrib 1000 ∧
     ∃ r : Report, calculateDistribution (.finite 900) (.finite 1000) = .ok r ∧
       r.personalIncomeTax = max 0 (r.withheld - r.employeeContributions)) :=
  ⟨by norm_num, estimated_matches_reported_contrib 900 1000 (by norm_num)⟩

/-- C3 counterexample: at gross = 2000, net = 1400 the reported
`totalCollected` differs from
gross × (sum of all contribution rates) + flat fee + personalIncomeTax
by about 0.2215, far beyond floating-point tolerance. -/
theorem totalCollected_claim_fails :
    calculateDistribution (.finite 1400) (.finite 2000) = .ok (mkReport 1400 2000) ∧
    ¬ |(mkReport 1400 2000).totalCollected -
        (2000 * allRatesSum + flatHealthContribution +
         (mkReport 1400 2000).personalIncomeTax)| ≤ 1 / 1000000 := by
  refine ⟨calc_ok 1400 2000 (by norm_num), ?_⟩
  norm_num [mkReport, total, totalContrib, totalAllocatedTax, Allocations.values,
    allocated, List.foldl, pensionContribution, healthContribution,
    unemploymentContribution, parentalContribution, injuryContribution,
    personalIncomeTax, withheld, estimatedEmployeeContrib, allRatesSum,
    sharePensions, shareHealthcare, shareUnemployment, shareFamily, shareOtherSocial,
    relativeGeneralShares, relativeSocialSubShares, rates, flatHealthContribution,
    abs_le]

/-- C3 amended: for every valid input, `totalCollected` equals
gross × (sum of all contribution rates) + flat fee + S × personalIncomeTax
exactly, where S = derivedShares.sum ≈ 0.99785 is the sum of the 13 derived
category shares (not 1). -/
theorem totalCollected_eq_shares (net gross : ℚ) (h : 0 < gross) :
    ∃ r : Report, calculateDistribution (.finite net) (.finite gross) = .ok r ∧
      r.totalCollected = gross * allRatesSum + flatHealthContribution +
        derivedShares.sum * r.personalIncomeTax := by
  refine ⟨mkReport net gross, calc_ok net gross h, ?_⟩
  show total net gross = gross * allRatesSum + flatHealthContribution +
    derivedShares.sum * personalIncomeTax net gross
  simp only [total, totalContrib, totalAllocatedTax, Allocations.values, allocated,
    List.foldl, pensionContribution, healthContribution, unemploymentContribution,
    parentalContribution, injuryContribution, derivedShares, List.sum_cons,
    List.sum_nil, allRatesSum, sharePensions, shareHealthcare, shareUnemployment,
    shareFamily, shareOtherSocial, relativeGeneralShares, relativeSocialSubShares,
    rates, flatHealthContribution]
  ring

/-- Witness for the amended C3 at net = 1400, gross = 2000. -/
theorem totalCollected_eq_shares_witness :
    (0:ℚ) < 2000 ∧
    ∃ r : Report, calculateDistribution (.finite 1400) (.finite 2000) = .ok r ∧
      r.totalCollected = 2000 * allRatesSum + flatHealthContribution +
        derivedShares.sum * r.personalIncomeTax :=
  ⟨by norm_num, totalCollected_eq_shares 1400 2000 (by norm_num)⟩

/-- C4: the structured error object is returned if and only if one of the
inputs is not finite or the gross salary is not positive; on every finite
pair with positive gross the full report is returned instead. -/
theorem error_iff_invalid (net gross : JSNum) :
    (calculateDistribution net gross = .error "Invalid salary values" ↔
      ¬ ∃ n g : ℚ, net = .finite n ∧ gross = .finite g ∧ 0 < g) ∧
    ∀ n g : ℚ, net = .finite n → gross = .finite g → 0 < g →
      calculateDistribution net gross = .ok (mkReport n g) := by
  cases net <;> cases gross <;> simp [calculateDistribution]

/-- Witness for C4: gross = 0 yields the error object; net = 1500 with
gross = 2500 yields the report. -/
theorem error_iff_invalid_witness :
    calculateDistribution (.finite 1500) (.finite 0) = .error "Invalid salary values" ∧
    calculateDistribution (.finite 1500) (.finite 2500) = .ok (mkReport 1500 2500) :=
  ⟨(error_iff_invalid (.finite 1500) (.finite 0)).1.mpr (by simp),
   (error_iff_invalid (.finite 1500) (.finite 2500)).2 1500 2500 rfl rfl (by norm_num)⟩

/-- C6: for every valid input the breakdown has exactly 13 entries and the
sum of their amounts equals `totalCollected` (exactly, in the rational
model, hence within any floating-point tolerance). -/
theorem breakdown_13_and_sum (net gross : ℚ) (h : 0 < gross) :
    ∃ r : Report, calculateDistribution (.finite net) (.finite gross) = .ok r ∧
      r.breakdown.length = 13 ∧
      (r.breakdown.map Prod.snd).sum = r.totalCollected := by
  refine ⟨mkReport net gross, calc_ok net gross h, rfl, ?_⟩
  show (List.map Prod.snd (finalBreakdown net gross)).sum = total net gross
  simp only [finalBreakdown, List.map_cons, List.map_nil, List.sum_cons, List.sum_nil,
    total, totalContrib, totalAllocatedTax, Allocations.values, allocated, List.foldl]
  ring

/-- Witness for C6 at net = 1900, gross = 3000. -/
theorem breakdown_13_and_sum_witness :
    (0:ℚ) < 3000 ∧
    ∃ r : Report, calculateDistribution (.finite 1900) (.finite 3000) = .ok r ∧
      r.breakdown.length = 13 ∧
      (r.breakdown.map Prod.snd).sum = r.totalCollected :=
  ⟨by norm_num, breakdown_13_and_sum 1900 3000 (by norm_num)⟩

/-- C7: for a fixed net and two valid gross salaries g1 ≤ g2, none of the
five contribution amounts computed for g2 is smaller than the corresponding
amount computed for g1. -/
theorem contributions_monotone (net g1 g2 : ℚ) (h1 : 0 < g1) (h12 : g1 ≤ g2) :
    ∃ r1 r2 : Report,
      calculateDistribution (.finite net) (.finite g1) = .ok r1 ∧
      calculateDistribution (.finite net) (.finite g2) = .ok r2 ∧
      r1.contributions.pension ≤ r2.contributions.pension ∧
      r1.contributions.health ≤ r2.contributions.health ∧
      r1.contributions.unemployment ≤ r2.contributions.unemployment ∧
      r1.contributions.parental ≤ r2.contributions.parental ∧
      r1.contributions.injury ≤ r2.contributions.injury := by
  refine ⟨mkReport net g1, mkReport net g2, calc_ok net g1 h1,
    calc_ok net g2 (lt_of_lt_of_le h1 h12), ?_, ?_, ?_, ?_, ?_⟩ <;>
  · simp only [mkReport, pensionContribution, healthContribution,
      unemploymentContribution, parentalContribution, injuryContribution,
      rates, flatHealthContribution]
    norm_num
    linarith

/-- Witness for C7 at net = 1000, g1 = 1500, g2 = 1501. -/
theorem contributions_monotone_witness :
    ((0:ℚ) < 1500 ∧ (1500:ℚ) ≤ 1501) ∧
    ∃ r1 r2 : Report,
      calculateDistribution (.finite 1000) (.finite 1500) = .ok r1 ∧
      calculateDistribution (.finite 1000) (.finite 1501) = .ok r2 ∧
      r1.contributions.pension ≤ r2.contributions.pension ∧
      r1.contributions.health ≤ r2.contributions.health ∧
      r1.contributions.unemployment ≤ r2.contributions.unemployment ∧
      r1.contributions.parental ≤ r2.contributions.parental ∧
      r1.contributions.injury ≤ r2.contributions.injury :=
  ⟨⟨by norm_num, by norm_num⟩,
   contributions_monotone 1000 1500 1501 (by norm_num) (by norm_num)⟩

/-- C10: for every valid input, all five contribution amounts, all 13
allocation values and all 13 breakdown amounts of the report are
nonnegative. -/
theorem report_amounts_nonneg (net gross : ℚ) (h : 0 < gross) :
    ∃ r : Report, calculateDistribution (.finite net) (.finite gross) = .ok r ∧
      (0 ≤ r.contributions.pension ∧ 0 ≤ r.contributions.health ∧
       0 ≤ r.contributions.unemployment ∧ 0 ≤ r.contributions.parental ∧
       0 ≤ r.contributions.injury) ∧
      (∀ x ∈ r.allocations.values, 0 ≤ x) ∧
      (∀ q ∈ r.breakdown, 0 ≤ q.2) := by
  have hg : (0:ℚ) ≤ gross := h.le
  have hpit : 0 ≤ personalIncomeTax net gross := personalIncomeTax_nonneg net gross
  have hmul : ∀ s : ℚ, 0 ≤ s → 0 ≤ personalIncomeTax net gross * s :=
    fun s hs => mul_nonneg hpit hs
  have hpen : 0 ≤ pensionContribution gross := mul_nonneg hg (by norm_num [rates])
  have hhea : 0 ≤ healthContribution gross :=
    add_nonneg (mul_nonneg hg (by norm_num [rates])) (by norm_num [flatHealthContribution])
  have hune : 0 ≤ unemploymentContribution gross := mul_nonneg hg (by norm_num [rates])
  have hpar : 0 ≤ parentalContribution gross := mul_nonneg hg (by norm_num [rates])
  have hinj : 0 ≤ injuryContribution gross := mul_nonneg hg (by norm_num [rates])
  refine ⟨mkReport net gross, calc_ok net gross h,
    ⟨hpen, hhea, hune, hpar, hinj⟩, ?_, ?_⟩
  · intro x hx
    simp only [mkReport, Allocations.values, allocated, List.mem_cons,
      List.not_mem_nil, or_false] at hx
    rcases hx with rfl | rfl | rfl | rfl | rfl | rfl | rfl | rfl | rfl | rfl | rfl | rfl | rfl <;>
      exact hmul _ (by norm_num [sharePensions, shareHealthcare, shareUnemployment,
        shareFamily, shareOtherSocial, relativeGeneralShares, relativeSocialSubShares])
  · intro q hq
    simp only [mkReport, finalBreakdown, allocated, List.mem_cons,
      List.not_mem_nil, or_false] at hq
    rcases hq with rfl | rfl | rfl | rfl | rfl | rfl | rfl | rfl | rfl | rfl | rfl | rfl | rfl
    · exact add_nonneg hpen (hmul _ (by norm_num [sharePensions, relativeSocialSubShares]))
    · exact add_nonneg (add_nonneg hhea (hmul _ (by norm_num [shareHealthcare,
        relativeGeneralShares, relativeSocialSubShares]))) hinj
    · exact add_nonneg hune (hmul _ (by norm_num [shareUnemployment, relativeSocialSubShares]))
    · exact add_nonneg hpar (hmul _ (by norm_num [shareFamily, relativeSocialSubShares]))
    · exact hmul _ (by norm_num [shareOtherSocial, relativeSocialSubShares])
    · exact hmul _ (by norm_num [relativeGeneralShares])
    · exact hmul _ (by norm_num [relativeGeneralShares])
    · exact hmul _ (by norm_num [relativeGeneralShares])
    · exact hmul _ (by norm_num [relativeGeneralShares])
    · exact hmul _ (by norm_num [relativeGeneralShares])
    · exact hmul _ (by norm_num [relativeGeneralShares])
    · exact hmul _ (by norm_num [relativeGeneralShares])
    · exact hmul _ (by norm_num [relativeGeneralShares])

/-- Witness for C10 at net = 2100, gross = 3200. -/
theorem report_amounts_nonneg_witness :
    (0:ℚ) < 3200 ∧
    ∃ r : Report, calculateDistribution (.finite 2100) (.finite 3200) = .ok r ∧
      (0 ≤ r.contributions.pension ∧ 0 ≤ r.contributions.health ∧
       0 ≤ r.contributions.unemployment ∧ 0 ≤ r.contributions.parental ∧
       0 ≤ r.contributions.injury) ∧
      (∀ x ∈ r.allocations.values, 0 ≤ x) ∧
      (∀ q ∈ r.breakdown, 0 ≤ q.2) :=
  ⟨by norm_num, report_amounts_nonneg 2100 3200 (by norm_num)⟩

end Taxes
